import Mathlib

/-!
Verification of the interactive OAuth process-automation core of the
gemini-hq repository (src/scripts/gemini_auth_setup.py and
src/scripts/gemini_cli_auth_fix.py), together with the diagnosis-driven
repair dispatcher of the fix script.

Conventions of the embedding:
* Lines of child output are `List Char`; Python string literals are
  translated with `String.data`.
* Wall-clock time is measured in tenths of a second, so the 10 s
  discovery deadline of both scripts is `100`, the 0.1 s select poll of
  the fix script is `1`, and the 120 s completion wait is `1200`.
* The browser-open collaborator is modelled by collecting, in order, the
  URLs it is invoked with (`opens`); the lines read from the child are
  collected in `consumed`.
-/

namespace GeminiHQ

/-! ### Trigger patterns

`gemini_auth_setup.py` line 208 compiles the regular expression
`https?://[^\s]+`; `gemini_cli_auth_fix.py` line 294 compiles
`https://accounts\.google\.com[^\s]+`.  Both are used through
`re.search`, i.e. leftmost match, with `[^\s]+` greedy.  The embedding
models `\s` on the ASCII whitespace characters. -/

/-- The ASCII characters matched by the Python regex class `\s`. -/
def isSpace (c : Char) : Bool :=
  c = ' ' || c = '\t' || c = '\n' || c = '\r' || c = '\x0b' || c = '\x0c'

/-- `stripLit pat l` returns `some rest` when `l = pat ++ rest`. -/
def stripLit : List Char → List Char → Option (List Char)
  | [], l => some l
  | _ :: _, [] => none
  | p :: ps, c :: cs => if c = p then stripLit ps cs else none

/-- Match the literal scheme `p` at the head of `l`, followed by the
greedy run `[^\s]+` (which must be nonempty); returns the whole matched
token, i.e. `group(0)` of the Python match. -/
def matchAt (p l : List Char) : Option (List Char) :=
  match stripLit p l with
  | none => none
  | some rest =>
    let run := rest.takeWhile (fun c => !isSpace c)
    if run = [] then none else some (p ++ run)

/-- `re.search` semantics for an alternation of literal schemes each
followed by `[^\s]+`: scan positions left to right, return the first
match. -/
def searchFrom (pats : List (List Char)) : List Char → Option (List Char)
  | [] => none
  | c :: rest =>
    match pats.findSome? (fun p => matchAt p (c :: rest)) with
    | some m => some m
    | none => searchFrom pats rest

/-- The trigger pattern of `gemini_auth_setup.py` (line 208):
`https?://[^\s]+`.  The optional `s` makes it an alternation of the two
literal schemes. -/
def searchHttpUrl (l : List Char) : Option (List Char) :=
  searchFrom ["https://".data, "http://".data] l

/-- The trigger pattern of `gemini_cli_auth_fix.py` (line 294):
`https://accounts\.google\.com[^\s]+`. -/
def searchGoogleUrl (l : List Char) : Option (List Char) :=
  searchFrom ["https://accounts.google.com".data] l

/-! ### Spec-side URL-token predicates

Modelled from the spec: section 4.4 of the design document describes the
trigger pattern as recognizing "a well-formed URL token (scheme `http`
or `https`, followed by a contiguous run of non-whitespace characters)
inside a line of text".  These definitions follow the words of the spec
and are compared with the search functions taken from the source. -/

/-- The scheme `p` occurs at the head of `t` followed by at least one
non-whitespace character (the start of a contiguous non-whitespace
run). -/
def specTokenAt (p t : List Char) : Bool :=
  match stripLit p t with
  | none => false
  | some [] => false
  | some (c :: _) => !isSpace c

/-- The line contains a well-formed URL token with scheme `http` or
`https`, in the words of the spec. -/
def specUrlTokenIn (l : List Char) : Bool :=
  l.tails.any fun t => specTokenAt ("https://".data) t || specTokenAt ("http://".data) t

/-- The line contains a token of the shape actually required by the fix
script: `https://accounts.google.com` followed by a nonempty run of
non-whitespace characters. -/
def specGoogleTokenIn (l : List Char) : Bool :=
  l.tails.any fun t => specTokenAt ("https://accounts.google.com".data) t

/-! ### Equivalence of the search functions with the token predicates -/

theorem matchAt_isSome (p l : List Char) :
    (matchAt p l).isSome = specTokenAt p l := by
  unfold matchAt specTokenAt
  cases h : stripLit p l with
  | none => rfl
  | some rest =>
    cases rest with
    | nil => rfl
    | cons c cs =>
      by_cases hc : isSpace c
      · simp [List.takeWhile, hc]
      · simp [List.takeWhile, hc]

theorem list_any_congr {α : Type} {f g : α → Bool} {l : List α}
    (h : ∀ x ∈ l, f x = g x) : l.any f = l.any g := by
  induction l with
  | nil => rfl
  | cons a t ih =>
    simp only [List.any_cons]
    rw [h a (List.mem_cons_self a t), ih fun x hx => h x (List.mem_cons_of_mem a hx)]

theorem findSome?_isSome_eq_any {α β : Type} (f : α → Option β) (l : List α) :
    (l.findSome? f).isSome = l.any fun x => (f x).isSome := by
  induction l with
  | nil => rfl
  | cons a t ih =>
    simp only [List.findSome?, List.any_cons]
    cases h : f a with
    | none => simpa [h] using ih
    | some b => simp [h]

theorem searchFrom_isSome_eq (pats : List (List Char)) (l : List Char) :
    (searchFrom pats l).isSome
      = l.tails.any fun t => pats.any fun p => specTokenAt p t := by
  induction l with
  | nil =>
    have hpat : ∀ p, specTokenAt p [] = false := by
      intro p
      cases p with
      | nil => rfl
      | cons c cs => rfl
    have htails : ([] : List Char).tails = [[]] := rfl
    rw [htails]
    simp only [searchFrom, List.any_cons, List.any_nil, Bool.or_false,
      Option.isSome_none]
    rw [list_any_congr fun p _ => hpat p]
    simp
  | cons c rest ih =>
    rw [List.tails_cons, List.any_cons]
    simp only [searchFrom]
    cases h : (pats.findSome? fun p => matchAt p (c :: rest)) with
    | some m =>
      have h2 : (pats.findSome? fun p => matchAt p (c :: rest)).isSome = true := by
        rw [h]; rfl
      rw [findSome?_isSome_eq_any] at h2
      have : (pats.any fun p => specTokenAt p (c :: rest)) = true := by
        rw [← h2]
        apply list_any_congr
        intro p _
        exact (matchAt_isSome p (c :: rest)).symm
      simp [this]
    | none =>
      have h2 : (pats.findSome? fun p => matchAt p (c :: rest)).isSome = false := by
        rw [h]; rfl
      rw [findSome?_isSome_eq_any] at h2
      have : (pats.any fun p => specTokenAt p (c :: rest)) = false := by
        rw [← h2]
        apply list_any_congr
        intro p _
        exact (matchAt_isSome p (c :: rest)).symm
      simp [this, ih]

theorem searchHttpUrl_isSome (l : List Char) :
    (searchHttpUrl l).isSome = specUrlTokenIn l := by
  unfold searchHttpUrl specUrlTokenIn
  rw [searchFrom_isSome_eq]
  apply list_any_congr
  intro t _
  simp [List.any_cons]

theorem searchGoogleUrl_isSome (l : List Char) :
    (searchGoogleUrl l).isSome = specGoogleTokenIn l := by
  unfold searchGoogleUrl specGoogleTokenIn
  rw [searchFrom_isSome_eq]
  apply list_any_congr
  intro t _
  simp [List.any_cons]

/-! ### Timed model of the child process and of the discovery loops

A line of child output is tagged with its arrival time (tenths of a
second from the start of the discovery phase).  `eofAt` is the time at
which the stdout stream closes (`readline` then returns the empty
string); `none` means the stream never closes.  `exitAt` is the time and
return code of child termination; `none` means the child never exits on
its own. -/

/-- One line of child output, with its arrival time. -/
structure TimedLine where
  t : Nat
  s : List Char
deriving DecidableEq

/-- How a discovery loop ended. -/
inductive DiscEnd where
  /-- The wall-clock check `time.time() - start_time < timeout` failed. -/
  | deadline
  /-- `readline` returned an empty string (end of stream): the setup
  script executes `if not line: break`. -/
  | eofBreak
  /-- The fix script observed `process.poll() is not None` and broke. -/
  | pollExit
  /-- The fix script matched the pattern, opened the browser and broke. -/
  | matched
  /-- The setup script is stuck in a blocking `readline` on a stream
  that never produces data and never closes: the read never returns. -/
  | blocked
deriving DecidableEq

/-- Result of a discovery loop: the value of the URL variable, the
browser invocations (in order), the lines read (in order), the
wall-clock time at which the loop ended, how it ended, and the largest
time a single read operation kept the caller waiting. -/
structure DiscRes where
  urlFound : Option (List Char)
  opens : List (List Char)
  consumed : List (List Char)
  endTime : Nat
  ended : DiscEnd
  maxReadWait : Nat
deriving DecidableEq

/-- Discovery loop of `gemini_auth_setup.py`, `step4_oauth_login`
lines 207-221: `while time.time() - start_time < timeout:` with
`timeout = 10`; a blocking `line = process.stdout.readline()`;
`if not line: break`; then `match = url_pattern.search(line)` and
`if match and not url_found:` open the browser, set `url_found = True`,
and keep looping (there is no `break` on a match).  The `url` parameter
is the pair of Python locals `url_found`/`url`.  A blocking `readline`
returns the next line when it arrives (possibly far beyond the
deadline), the empty string when the stream closes, and never returns
on a silent stream that stays open. -/
def step4_loop (eofAt : Option Nat) : List TimedLine → Nat → Option (List Char) → DiscRes
  | [], now, url =>
    if 100 ≤ now then ⟨url, [], [], now, .deadline, 0⟩
    else
      match eofAt with
      | some tE => ⟨url, [], [], max now tE, .eofBreak, max now tE - now⟩
      | none => ⟨url, [], [], now, .blocked, 0⟩
  | tl :: rest, now, url =>
    if 100 ≤ now then ⟨url, [], [], now, .deadline, 0⟩
    else if tl.s = [] then ⟨url, [], [tl.s], max now tl.t, .eofBreak, max now tl.t - now⟩
    else
      match searchHttpUrl tl.s, url with
      | some u, none =>
        let r := step4_loop eofAt rest (max now tl.t) (some u)
        ⟨r.urlFound, u :: r.opens, tl.s :: r.consumed, r.endTime, r.ended,
          max (max now tl.t - now) r.maxReadWait⟩
      | _, _ =>
        let r := step4_loop eofAt rest (max now tl.t) url
        ⟨r.urlFound, r.opens, tl.s :: r.consumed, r.endTime, r.ended,
          max (max now tl.t - now) r.maxReadWait⟩

/-- `process.poll() is not None` at time `now`. -/
def pollExited (exitAt : Option Nat) (now : Nat) : Bool :=
  match exitAt with
  | some te => te ≤ now
  | none => false

/-- Discovery loop of `gemini_cli_auth_fix.py`, `perform_oauth_login`
lines 296-321 (the POSIX branch, which is the one the script targets):
`while time.time() - start_time < timeout:` with `timeout = 10`;
`if process.poll() is not None: break`; `select.select([stdout], [], [], 0.1)`
and `continue` when nothing is ready; `if not line: continue`;
`match = url_pattern.search(line)`; `if match and not oauth_url:` record
the URL, open the browser and `break`.  Every wait is bounded by the
0.1 s select poll (one time unit).  When the stream has closed and the
child is still running, select reports ready immediately, `readline`
returns the empty string and the loop spins until the poll check or the
deadline ends it; that spin is collapsed into its exit point here. -/
def oauth_url_loop : Option Nat → Option Nat → List TimedLine → Nat → Option (List Char) → DiscRes
  | exitAt, eofAt, [], now, url =>
    if 100 ≤ now then ⟨url, [], [], now, .deadline, 0⟩
    else if pollExited exitAt now then ⟨url, [], [], now, .pollExit, 0⟩
    else
      match eofAt with
      | some tE =>
        if tE ≤ now + 1 then
          match exitAt with
          | some te =>
            if te < 100 then ⟨url, [], [], max (max now tE) te, .pollExit, max now tE - now⟩
            else ⟨url, [], [], 100, .deadline, max now tE - now⟩
          | none => ⟨url, [], [], 100, .deadline, max now tE - now⟩
        else
          let r := oauth_url_loop exitAt (some tE) [] (now + 1) url
          ⟨r.urlFound, r.opens, r.consumed, r.endTime, r.ended, max 1 r.maxReadWait⟩
      | none =>
        let r := oauth_url_loop exitAt none [] (now + 1) url
        ⟨r.urlFound, r.opens, r.consumed, r.endTime, r.ended, max 1 r.maxReadWait⟩
  | exitAt, eofAt, tl :: rest, now, url =>
    if 100 ≤ now then ⟨url, [], [], now, .deadline, 0⟩
    else if pollExited exitAt now then ⟨url, [], [], now, .pollExit, 0⟩
    else if tl.t ≤ now + 1 then
      if tl.s = [] then
        let r := oauth_url_loop exitAt eofAt rest (max now tl.t) url
        ⟨r.urlFound, r.opens, tl.s :: r.consumed, r.endTime, r.ended,
          max (max now tl.t - now) r.maxReadWait⟩
      else if (searchGoogleUrl tl.s).isSome ∧ url = none then
        ⟨searchGoogleUrl tl.s, (searchGoogleUrl tl.s).toList, [tl.s], max now tl.t,
          .matched, max now tl.t - now⟩
      else
        let r := oauth_url_loop exitAt eofAt rest (max now tl.t) url
        ⟨r.urlFound, r.opens, tl.s :: r.consumed, r.endTime, r.ended,
          max (max now tl.t - now) r.maxReadWait⟩
    else
      let r := oauth_url_loop exitAt eofAt (tl :: rest) (now + 1) url
      ⟨r.urlFound, r.opens, r.consumed, r.endTime, r.ended, max 1 r.maxReadWait⟩
termination_by _ _ items now _ => items.length * 101 + (100 - now)
decreasing_by
  all_goals try simp only [List.length_cons]
  all_goals omega

/-! ### Invariants of the setup-script discovery loop -/

/-- First trigger match over a list of consumed lines. -/
def firstMatch (f : List Char → Option (List Char)) (ls : List (List Char)) :
    Option (List Char) :=
  ls.findSome? f

theorem firstMatch_nil (f : List Char → Option (List Char)) :
    firstMatch f [] = none := rfl

theorem firstMatch_cons_some {f : List Char → Option (List Char)} {a b : List Char}
    (l : List (List Char)) (h : f a = some b) : firstMatch f (a :: l) = some b := by
  unfold firstMatch
  rw [List.findSome?_cons, h]

theorem firstMatch_cons_none {f : List Char → Option (List Char)} {a : List Char}
    (l : List (List Char)) (h : f a = none) : firstMatch f (a :: l) = firstMatch f l := by
  unfold firstMatch
  rw [List.findSome?_cons, h]

theorem searchHttpUrl_nil : searchHttpUrl [] = none := rfl

theorem step4_loop_some (eofAt : Option Nat) (items : List TimedLine) :
    ∀ (now : Nat) (u : List Char),
      (step4_loop eofAt items now (some u)).urlFound = some u ∧
      (step4_loop eofAt items now (some u)).opens = [] := by
  induction items with
  | nil =>
    intro now u
    by_cases h : 100 ≤ now <;> cases eofAt <;> simp [step4_loop, h]
  | cons tl rest ih =>
    intro now u
    by_cases h : 100 ≤ now
    · simp [step4_loop, h]
    · by_cases hs : tl.s = []
      · simp [step4_loop, h, hs]
      · cases hm : searchHttpUrl tl.s with
        | none =>
          simp [step4_loop, h, hs, hm, (ih (max now tl.t) u).1, (ih (max now tl.t) u).2]
        | some v =>
          simp [step4_loop, h, hs, hm, (ih (max now tl.t) u).1, (ih (max now tl.t) u).2]

theorem step4_loop_none (eofAt : Option Nat) (items : List TimedLine) :
    ∀ (now : Nat),
      (step4_loop eofAt items now none).urlFound
          = firstMatch searchHttpUrl (step4_loop eofAt items now none).consumed ∧
      (step4_loop eofAt items now none).opens
          = (firstMatch searchHttpUrl (step4_loop eofAt items now none).consumed).toList := by
  induction items with
  | nil =>
    intro now
    by_cases h : 100 ≤ now <;> cases eofAt <;> simp [step4_loop, h, firstMatch_nil]
  | cons tl rest ih =>
    intro now
    by_cases h : 100 ≤ now
    · simp [step4_loop, h, firstMatch_nil]
    · by_cases hs : tl.s = []
      · have hempty : searchHttpUrl tl.s = none := by rw [hs]; exact searchHttpUrl_nil
        simp [step4_loop, h, hs, firstMatch_cons_none _ searchHttpUrl_nil, firstMatch_nil]
      · cases hm : searchHttpUrl tl.s with
        | none =>
          have := ih (max now tl.t)
          simp [step4_loop, h, hs, hm, firstMatch_cons_none _ hm, this.1, this.2]
        | some v =>
          have hpres := step4_loop_some eofAt rest (max now tl.t) v
          simp [step4_loop, h, hs, hm, firstMatch_cons_some _ hm, hpres.1, hpres.2]

/-! ### Invariants of the fix-script discovery loop -/

theorem searchGoogleUrl_nil : searchGoogleUrl [] = none := rfl

theorem oauth_loop_maxRead (exitAt eofAt : Option Nat) (items : List TimedLine)
    (now : Nat) (url : Option (List Char)) :
    (oauth_url_loop exitAt eofAt items now url).maxReadWait ≤ 1 := by
  induction exitAt, eofAt, items, now, url using oauth_url_loop.induct with
  | case1 ex eo now url h =>
    cases ex <;> cases eo <;> (rw [oauth_url_loop]; simp [h])
  | case2 ex eo now url h1 h2 =>
    cases ex <;> cases eo <;> (rw [oauth_url_loop]; simp [h1, h2])
  | case3 now url h1 tE1 h2 tE h3 h4 =>
    rw [oauth_url_loop]
    simp [h1, h2, h3, h4]
    omega
  | case4 now url h1 tE1 h2 tE h3 h4 =>
    rw [oauth_url_loop]
    simp [h1, h2, h3, h4]
    omega
  | case5 now url h1 tE h2 h3 =>
    rw [oauth_url_loop]
    simp [h1, h2, h3]
    omega
  | case6 ex now url h1 h2 tE h3 ih =>
    cases ex <;> (rw [oauth_url_loop]; simp [h1, h2, h3]; omega)
  | case7 ex now url h1 h2 ih =>
    rw [oauth_url_loop]
    simp [h1, h2]
    omega
  | case8 ex eo tl rest now url h1 =>
    rw [oauth_url_loop]
    simp [h1]
  | case9 ex eo tl rest now url h1 h2 =>
    rw [oauth_url_loop]
    simp [h1, h2]
  | case10 ex eo tl rest now url h1 h2 h3 h4 ih =>
    rw [oauth_url_loop]
    simp [h1, h2, h3, h4]
    omega
  | case11 ex eo tl rest now url h1 h2 h3 h4 h5 =>
    rw [oauth_url_loop]
    simp [h1, h2, h3, h4, h5]
    omega
  | case12 ex eo tl rest now url h1 h2 h3 h4 h5 ih =>
    rw [oauth_url_loop]
    simp [h1, h2, h3, h4, h5]
    omega
  | case13 ex eo tl rest now url h1 h2 h3 ih =>
    rw [oauth_url_loop]
    simp [h1, h2, h3]
    omega

theorem oauth_loop_some (exitAt eofAt : Option Nat) (items : List TimedLine)
    (now : Nat) (url : Option (List Char)) :
    ∀ u : List Char, url = some u →
      (oauth_url_loop exitAt eofAt items now url).urlFound = some u ∧
      (oauth_url_loop exitAt eofAt items now url).opens = [] := by
  induction exitAt, eofAt, items, now, url using oauth_url_loop.induct with
  | case1 ex eo now url h =>
    intro u hu
    subst hu
    cases ex <;> cases eo <;> (rw [oauth_url_loop]; simp [h])
  | case2 ex eo now url h1 h2 =>
    intro u hu
    subst hu
    cases ex <;> cases eo <;> (rw [oauth_url_loop]; simp [h1, h2])
  | case3 now url h1 tE1 h2 tE h3 h4 =>
    intro u hu
    subst hu
    rw [oauth_url_loop]
    simp [h1, h2, h3, h4]
  | case4 now url h1 tE1 h2 tE h3 h4 =>
    intro u hu
    subst hu
    rw [oauth_url_loop]
    simp [h1, h2, h3, h4]
  | case5 now url h1 tE h2 h3 =>
    intro u hu
    subst hu
    rw [oauth_url_loop]
    simp [h1, h2, h3]
  | case6 ex now url h1 h2 tE h3 ih =>
    intro u hu
    subst hu
    cases ex <;> (rw [oauth_url_loop]; simp [h1, h2, h3]; exact ih u rfl)
  | case7 ex now url h1 h2 ih =>
    intro u hu
    subst hu
    cases ex <;> (rw [oauth_url_loop]; simp [h1, h2]; exact ih u rfl)
  | case8 ex eo tl rest now url h1 =>
    intro u hu
    subst hu
    rw [oauth_url_loop]
    simp [h1]
  | case9 ex eo tl rest now url h1 h2 =>
    intro u hu
    subst hu
    rw [oauth_url_loop]
    simp [h1, h2]
  | case10 ex eo tl rest now url h1 h2 h3 h4 ih =>
    intro u hu
    subst hu
    rw [oauth_url_loop]
    simp [h1, h2, h3, h4]
    exact ih u rfl
  | case11 ex eo tl rest now url h1 h2 h3 h4 h5 =>
    intro u hu
    rw [hu] at h5
    simp at h5
  | case12 ex eo tl rest now url h1 h2 h3 h4 h5 ih =>
    intro u hu
    subst hu
    rw [oauth_url_loop]
    simp only [h1, h2, h3, h4, h5, if_false, ite_false]
    simp [h5]
    exact ih u rfl
  | case13 ex eo tl rest now url h1 h2 h3 ih =>
    intro u hu
    subst hu
    rw [oauth_url_loop]
    simp [h1, h2, h3]
    exact ih u rfl

theorem searchGoogleUrl_eq_none_of_not_isSome {l : List Char}
    (h : ¬ (searchGoogleUrl l).isSome = true) : searchGoogleUrl l = none := by
  cases hg : searchGoogleUrl l with
  | none => rfl
  | some v => rw [hg] at h; simp at h

theorem oauth_loop_none (exitAt eofAt : Option Nat) (items : List TimedLine)
    (now : Nat) (url : Option (List Char)) :
    url = none →
      (oauth_url_loop exitAt eofAt items now url).urlFound
          = firstMatch searchGoogleUrl (oauth_url_loop exitAt eofAt items now url).consumed ∧
      (oauth_url_loop exitAt eofAt items now url).opens
          = (firstMatch searchGoogleUrl
              (oauth_url_loop exitAt eofAt items now url).consumed).toList := by
  induction exitAt, eofAt, items, now, url using oauth_url_loop.induct with
  | case1 ex eo now url h =>
    intro hu
    subst hu
    cases ex <;> cases eo <;> (rw [oauth_url_loop]; simp [h, firstMatch_nil])
  | case2 ex eo now url h1 h2 =>
    intro hu
    subst hu
    cases ex <;> cases eo <;> (rw [oauth_url_loop]; simp [h1, h2, firstMatch_nil])
  | case3 now url h1 tE1 h2 tE h3 h4 =>
    intro hu
    subst hu
    rw [oauth_url_loop]
    simp [h1, h2, h3, h4, firstMatch_nil]
  | case4 now url h1 tE1 h2 tE h3 h4 =>
    intro hu
    subst hu
    rw [oauth_url_loop]
    simp [h1, h2, h3, h4, firstMatch_nil]
  | case5 now url h1 tE h2 h3 =>
    intro hu
    subst hu
    rw [oauth_url_loop]
    simp [h1, h2, h3, firstMatch_nil]
  | case6 ex now url h1 h2 tE h3 ih =>
    intro hu
    subst hu
    cases ex <;> (rw [oauth_url_loop]; simp [h1, h2, h3]; exact ih rfl)
  | case7 ex now url h1 h2 ih =>
    intro hu
    subst hu
    cases ex <;> (rw [oauth_url_loop]; simp [h1, h2]; exact ih rfl)
  | case8 ex eo tl rest now url h1 =>
    intro hu
    subst hu
    rw [oauth_url_loop]
    simp [h1, firstMatch_nil]
  | case9 ex eo tl rest now url h1 h2 =>
    intro hu
    subst hu
    rw [oauth_url_loop]
    simp [h1, h2, firstMatch_nil]
  | case10 ex eo tl rest now url h1 h2 h3 h4 ih =>
    intro hu
    subst hu
    rw [oauth_url_loop]
    simp [h1, h2, h3, h4, firstMatch_cons_none _ searchGoogleUrl_nil,
      (ih rfl).1, (ih rfl).2]
  | case11 ex eo tl rest now url h1 h2 h3 h4 h5 =>
    intro hu
    subst hu
    obtain ⟨u, hu2⟩ := Option.isSome_iff_exists.mp h5.1
    rw [oauth_url_loop]
    simp [h1, h2, h3, h4, h5, firstMatch_cons_some [] hu2, firstMatch_nil, hu2]
  | case12 ex eo tl rest now url h1 h2 h3 h4 h5 ih =>
    intro hu
    subst hu
    have hnone : searchGoogleUrl tl.s = none := by
      apply searchGoogleUrl_eq_none_of_not_isSome
      intro hb
      exact h5 ⟨hb, rfl⟩
    rw [oauth_url_loop]
    simp [h1, h2, h3, h4, hnone, firstMatch_cons_none _ hnone, (ih rfl).1, (ih rfl).2]
  | case13 ex eo tl rest now url h1 h2 h3 ih =>
    intro hu
    subst hu
    rw [oauth_url_loop]
    simp [h1, h2, h3, (ih rfl).1, (ih rfl).2]

theorem oauth_loop_nil (exitAt eofAt : Option Nat) (items : List TimedLine)
    (now : Nat) (url : Option (List Char)) :
    items = [] →
      (oauth_url_loop exitAt eofAt items now url).urlFound = url ∧
      (oauth_url_loop exitAt eofAt items now url).opens = [] ∧
      (oauth_url_loop exitAt eofAt items now url).consumed = [] := by
  induction exitAt, eofAt, items, now, url using oauth_url_loop.induct with
  | case1 ex eo now url h =>
    intro _
    cases ex <;> cases eo <;> (rw [oauth_url_loop]; simp [h])
  | case2 ex eo now url h1 h2 =>
    intro _
    cases ex <;> cases eo <;> (rw [oauth_url_loop]; simp [h1, h2])
  | case3 now url h1 tE1 h2 tE h3 h4 =>
    intro _
    rw [oauth_url_loop]
    simp [h1, h2, h3, h4]
  | case4 now url h1 tE1 h2 tE h3 h4 =>
    intro _
    rw [oauth_url_loop]
    simp [h1, h2, h3, h4]
  | case5 now url h1 tE h2 h3 =>
    intro _
    rw [oauth_url_loop]
    simp [h1, h2, h3]
  | case6 ex now url h1 h2 tE h3 ih =>
    intro _
    cases ex <;> (rw [oauth_url_loop]; simp [h1, h2, h3]; exact ih rfl)
  | case7 ex now url h1 h2 ih =>
    intro _
    cases ex <;> (rw [oauth_url_loop]; simp [h1, h2]; exact ih rfl)
  | case8 ex eo tl rest now url h1 =>
    intro hx
    exact absurd hx (List.cons_ne_nil tl rest)
  | case9 ex eo tl rest now url h1 h2 =>
    intro hx
    exact absurd hx (List.cons_ne_nil tl rest)
  | case10 ex eo tl rest now url h1 h2 h3 h4 ih =>
    intro hx
    exact absurd hx (List.cons_ne_nil tl rest)
  | case11 ex eo tl rest now url h1 h2 h3 h4 h5 =>
    intro hx
    exact absurd hx (List.cons_ne_nil tl rest)
  | case12 ex eo tl rest now url h1 h2 h3 h4 h5 ih =>
    intro hx
    exact absurd hx (List.cons_ne_nil tl rest)
  | case13 ex eo tl rest now url h1 h2 h3 ih =>
    intro hx
    exact absurd hx (List.cons_ne_nil tl rest)

/-! ### Full runs of the two OAuth login procedures -/

/-- Behaviour of one launched child process (`gemini auth login`):
its output lines with arrival times, the time its stdout closes
(`none`: never), and the time and return code of its exit
(`none`: it never exits on its own). -/
structure Child where
  lines : List TimedLine
  eofAt : Option Nat
  exitAt : Option (Nat × Int)
deriving DecidableEq

/-- Why `subprocess.Popen` raised. -/
inductive LaunchErr where
  | notFound
  | other
deriving DecidableEq

/-- Terminal classification of a login attempt. -/
inductive Outcome where
  /-- `process.wait` returned 0. -/
  | succeeded
  /-- `process.wait` returned a nonzero status. -/
  | processFailed
  /-- `process.wait(timeout=120)` raised `TimeoutExpired`; `kill` was called. -/
  | timedOutCompleting
  /-- `Popen` raised `FileNotFoundError` (fix script handler, line 342). -/
  | processNotFound
  /-- The generic exception handler reported the launch failure. -/
  | launchFailed
  /-- The setup script is stuck forever in a blocking `readline`. -/
  | blockedForever
deriving DecidableEq

/-- Observable result of one run: the discovered URL, browser
invocations, lines read, whether the no-URL warning was printed,
whether control reached the `process.wait` call, how many times `kill`
was called, whether the child is still running afterwards, and the
outcome. -/
structure RunRes where
  urlFound : Option (List Char)
  opens : List (List Char)
  consumed : List (List Char)
  warnedNoUrl : Bool
  reachedWait : Bool
  waitStart : Nat
  kills : Nat
  aliveAfter : Bool
  outcome : Outcome
deriving DecidableEq

/-- `gemini_auth_setup.py`, `step4_oauth_login` (lines 194-241): launch
`gemini auth login`; on any exception report failure; otherwise run the
discovery loop (lines 207-221), warn when no URL was found (lines
222-224), then `process.wait(timeout=120)` (lines 227-238): return code
0 means success, nonzero failure, and `TimeoutExpired` leads to
`process.kill()` and failure.  A child that exits at `te` is seen by
`wait` iff `te` is at most the wait start plus 1200 (120 s). -/
def step4_oauth_login (launch : Except LaunchErr Child) : RunRes :=
  match launch with
  | .error _ => ⟨none, [], [], false, false, 0, 0, false, .launchFailed⟩
  | .ok c =>
    let d := step4_loop c.eofAt c.lines 0 none
    if d.ended = DiscEnd.blocked then
      ⟨d.urlFound, d.opens, d.consumed, false, false, d.endTime, 0, true, .blockedForever⟩
    else
      match c.exitAt with
      | some (te, rc) =>
        if te ≤ d.endTime + 1200 then
          ⟨d.urlFound, d.opens, d.consumed, d.urlFound.isNone, true, d.endTime, 0, false,
            if rc = 0 then .succeeded else .processFailed⟩
        else
          ⟨d.urlFound, d.opens, d.consumed, d.urlFound.isNone, true, d.endTime, 1, false,
            .timedOutCompleting⟩
      | none =>
        ⟨d.urlFound, d.opens, d.consumed, d.urlFound.isNone, true, d.endTime, 1, false,
          .timedOutCompleting⟩

/-- `gemini_cli_auth_fix.py`, `perform_oauth_login` (lines 279-347):
launch `gemini auth login` (`FileNotFoundError` reported separately from
other exceptions, lines 342-347); run the select-based discovery loop
(lines 296-321), warn when no URL was found (lines 322-324), then
`process.wait(timeout=120)` (lines 327-341) with the same outcome
mapping as the setup script. -/
def perform_oauth_login (launch : Except LaunchErr Child) : RunRes :=
  match launch with
  | .error .notFound => ⟨none, [], [], false, false, 0, 0, false, .processNotFound⟩
  | .error .other => ⟨none, [], [], false, false, 0, 0, false, .launchFailed⟩
  | .ok c =>
    let d := oauth_url_loop (c.exitAt.map Prod.fst) c.eofAt c.lines 0 none
    match c.exitAt with
    | some (te, rc) =>
      if te ≤ d.endTime + 1200 then
        ⟨d.urlFound, d.opens, d.consumed, d.urlFound.isNone, true, d.endTime, 0, false,
          if rc = 0 then .succeeded else .processFailed⟩
      else
        ⟨d.urlFound, d.opens, d.consumed, d.urlFound.isNone, true, d.endTime, 1, false,
          .timedOutCompleting⟩
    | none =>
      ⟨d.urlFound, d.opens, d.consumed, d.urlFound.isNone, true, d.endTime, 1, false,
        .timedOutCompleting⟩

theorem step4_run_fields (c : Child)
    (hnb : (step4_loop c.eofAt c.lines 0 none).ended ≠ DiscEnd.blocked) :
    (step4_oauth_login (.ok c)).urlFound = (step4_loop c.eofAt c.lines 0 none).urlFound ∧
    (step4_oauth_login (.ok c)).opens = (step4_loop c.eofAt c.lines 0 none).opens ∧
    (step4_oauth_login (.ok c)).consumed = (step4_loop c.eofAt c.lines 0 none).consumed ∧
    (step4_oauth_login (.ok c)).warnedNoUrl
        = (step4_loop c.eofAt c.lines 0 none).urlFound.isNone ∧
    (step4_oauth_login (.ok c)).reachedWait = true := by
  unfold step4_oauth_login
  simp only [hnb, if_neg, ite_false]
  cases hx : c.exitAt with
  | none => simp [hnb, hx]
  | some p =>
    obtain ⟨te, rc⟩ := p
    by_cases hw : te ≤ (step4_loop c.eofAt c.lines 0 none).endTime + 1200 <;>
      simp [hnb, hx, hw]

theorem oauth_run_fields (c : Child) :
    (perform_oauth_login (.ok c)).urlFound
        = (oauth_url_loop (c.exitAt.map Prod.fst) c.eofAt c.lines 0 none).urlFound ∧
    (perform_oauth_login (.ok c)).opens
        = (oauth_url_loop (c.exitAt.map Prod.fst) c.eofAt c.lines 0 none).opens ∧
    (perform_oauth_login (.ok c)).consumed
        = (oauth_url_loop (c.exitAt.map Prod.fst) c.eofAt c.lines 0 none).consumed ∧
    (perform_oauth_login (.ok c)).warnedNoUrl
        = (oauth_url_loop (c.exitAt.map Prod.fst) c.eofAt c.lines 0 none).urlFound.isNone ∧
    (perform_oauth_login (.ok c)).reachedWait = true := by
  unfold perform_oauth_login
  cases hx : c.exitAt with
  | none => simp [hx]
  | some p =>
    obtain ⟨te, rc⟩ := p
    by_cases hw : te ≤ (oauth_url_loop (some te) c.eofAt c.lines 0 none).endTime + 1200 <;>
      simp [hw, hx]

/-! ### Diagnosis and repair dispatch of `gemini_cli_auth_fix.py` -/

/-- Issue tags appended to `self.issues_found` by `diagnose_auth_issues`
(lines 104-163). -/
inductive Issue where
  | gemini_cli_missing
  | api_key_conflict
  | corrupted_config
  | no_credentials
  | bad_term
  | auth_failure
deriving DecidableEq

/-- Environment observed by the six diagnosis checks. -/
structure FixEnv where
  /-- `gemini --version` succeeded. -/
  geminiVersionOk : Bool
  /-- `GEMINI_API_KEY` is present in `os.environ`. -/
  apiKeyInEnv : Bool
  /-- `~/.gemini/settings.json` exists. -/
  settingsExists : Bool
  /-- Its content parses as JSON. -/
  settingsValidJson : Bool
  /-- `~/.gemini/credentials.json` exists. -/
  credentialsExists : Bool
  /-- Value of the `TERM` environment variable, `none` when unset. -/
  termVar : Option (List Char)
  /-- The `gemini test --model gemini-1.5-flash` probe succeeded. -/
  testCmdOk : Bool
deriving DecidableEq

/-- `os.environ.get("TERM", "").lower()`. -/
def termLower (t : Option (List Char)) : List Char :=
  (t.getD []).map Char.toLower

/-- `diagnose_auth_issues` (lines 104-163): the six checks, in program
order, each appending its tag when it fails. -/
def diagnose_auth_issues (e : FixEnv) : List Issue :=
  (if e.geminiVersionOk = false then [Issue.gemini_cli_missing] else []) ++
  (if e.apiKeyInEnv = true then [Issue.api_key_conflict] else []) ++
  (if e.settingsExists = true ∧ e.settingsValidJson = false then [Issue.corrupted_config] else []) ++
  (if e.credentialsExists = false then [Issue.no_credentials] else []) ++
  (if termLower e.termVar = ("dumb".data) ∨ termLower e.termVar = [] then [Issue.bad_term] else []) ++
  (if e.testCmdOk = false then [Issue.auth_failure] else [])

/-- The operations `run_fix` can invoke after diagnosis. -/
inductive FixStep where
  | apiKey
  | config
  | term
  | install
  | oauth
  | testAuth
deriving DecidableEq

/-- Result of `run_fix`: the operations invoked, in order, and the
returned boolean. -/
structure FixRunRes where
  invoked : List FixStep
  ret : Bool
deriving DecidableEq

/-- `run_fix` (lines 381-430): diagnose; when no issue was found, run
the verification test anyway and return `True` (lines 393-398);
otherwise dispatch each fix guarded by its issue tag (lines 399-411),
abort with `False` when installation or OAuth login fails, and finally
return the result of `test_authentication` (line 412, line 424).
`installOk`, `oauthOk` and `testOk` are the results the three fallible
collaborators would report when invoked. -/
def run_fix (e : FixEnv) (installOk oauthOk testOk : Bool) : FixRunRes :=
  let issues := diagnose_auth_issues e
  if issues = [] then ⟨[FixStep.testAuth], true⟩
  else
    let s1 := if Issue.api_key_conflict ∈ issues then [FixStep.apiKey] else []
    let s2 := s1 ++ (if Issue.corrupted_config ∈ issues then [FixStep.config] else [])
    let s3 := s2 ++ (if Issue.bad_term ∈ issues then [FixStep.term] else [])
    if Issue.gemini_cli_missing ∈ issues ∧ installOk = false then
      ⟨s3 ++ [FixStep.install], false⟩
    else
      let s4 := s3 ++ (if Issue.gemini_cli_missing ∈ issues then [FixStep.install] else [])
      if (Issue.no_credentials ∈ issues ∨ Issue.auth_failure ∈ issues) ∧ oauthOk = false then
        ⟨s4 ++ [FixStep.oauth], false⟩
      else
        let s5 := s4 ++
          (if Issue.no_credentials ∈ issues ∨ Issue.auth_failure ∈ issues then [FixStep.oauth]
           else [])
        ⟨s5 ++ [FixStep.testAuth], testOk⟩

/-! ### Helper lemmas shared by the claim theorems -/

theorem step4_run_io (c : Child) :
    (step4_oauth_login (.ok c)).urlFound = (step4_loop c.eofAt c.lines 0 none).urlFound ∧
    (step4_oauth_login (.ok c)).opens = (step4_loop c.eofAt c.lines 0 none).opens ∧
    (step4_oauth_login (.ok c)).consumed = (step4_loop c.eofAt c.lines 0 none).consumed := by
  unfold step4_oauth_login
  by_cases hb : (step4_loop c.eofAt c.lines 0 none).ended = DiscEnd.blocked
  · simp [hb]
  · cases hx : c.exitAt with
    | none => simp [hb, hx]
    | some p =>
      obtain ⟨te, rc⟩ := p
      by_cases hw : te ≤ (step4_loop c.eofAt c.lines 0 none).endTime + 1200 <;>
        simp [hb, hx, hw]

theorem firstMatch_isSome_of_mem {f : List Char → Option (List Char)}
    {ls : List (List Char)} (h : ∃ l ∈ ls, (f l).isSome = true) :
    (firstMatch f ls).isSome = true := by
  unfold firstMatch
  rw [findSome?_isSome_eq_any, List.any_eq_true]
  exact h

theorem firstMatch_eq_none {f : List Char → Option (List Char)}
    {ls : List (List Char)} (h : ∀ l ∈ ls, f l = none) :
    firstMatch f ls = none := by
  induction ls with
  | nil => rfl
  | cons a t ih =>
    rw [firstMatch_cons_none t (h a (List.mem_cons_self a t))]
    exact ih fun l hl => h l (List.mem_cons_of_mem a hl)

/-! ### Claim theorems -/

/-- Claim C2, counterexample: the spec example line
`visit https://example.com/auth?code=abc123 to continue` contains a
well-formed URL token with scheme `https`, yet the fix script trigger
pattern `https://accounts\.google\.com[^\s]+` does not match it, so the
discovery logic of `gemini_cli_auth_fix.py` does not recognize it. -/
theorem c2_counterexample :
    specUrlTokenIn ("visit https://example.com/auth?code=abc123 to continue".data) = true
    ∧ searchGoogleUrl ("visit https://example.com/auth?code=abc123 to continue".data)
        = none := by
  exact ⟨by decide, by decide⟩

/-- Claim C2 as amended: the setup script pattern matches a line
exactly when it contains a well-formed `http` or `https` URL token, but
the fix script pattern is host-restricted: it matches exactly when the
line contains `https://accounts.google.com` followed by at least one
non-whitespace character. -/
theorem c2_amended_pattern (l : List Char) :
    ((searchHttpUrl l).isSome = specUrlTokenIn l)
    ∧ ((searchGoogleUrl l).isSome = specGoogleTokenIn l) :=
  ⟨searchHttpUrl_isSome l, searchGoogleUrl_isSome l⟩

/-- Claim C3, counterexample: in `gemini_auth_setup.py` the blocking
`readline` (line 212) is not bounded by any maximum wait.  With a child
whose single line arrives at time 1000 (100 s), the read keeps the
caller waiting 1000 time units, ten times the 10-second discovery
deadline (100), and the line is consumed instead of any timeout being
reported. -/
theorem c3_counterexample :
    (step4_loop none [⟨1000, ['x']⟩] 0 none).maxReadWait = 1000
    ∧ (step4_loop none [⟨1000, ['x']⟩] 0 none).consumed = [['x']]
    ∧ 100 < 1000 := by
  exact ⟨by decide, by decide, by decide⟩

/-- Claim C3 as amended: only the fix script bounds each read.  Every
wait of the select-based loop of `gemini_cli_auth_fix.py` (POSIX path)
is at most one poll interval (0.1 s), while the blocking `readline` of
`gemini_auth_setup.py` can keep the caller waiting beyond any bound:
for every bound `B` there is a child making a single read wait more
than `B`. -/
theorem c3_amended_bounded_reads :
    (∀ (exitAt eofAt : Option Nat) (items : List TimedLine) (now : Nat)
        (url : Option (List Char)),
        (oauth_url_loop exitAt eofAt items now url).maxReadWait ≤ 1)
    ∧ (∀ B : Nat, B < (step4_loop none [⟨B + 101, ['x']⟩] 0 none).maxReadWait) := by
  constructor
  · exact oauth_loop_maxRead
  · intro B
    have hs : searchHttpUrl ['x'] = none := by decide
    have h0 : ¬ (100 : Nat) ≤ 0 := by omega
    simp [step4_loop, h0, hs]

/-- Claim C6: when launching the child fails, both scripts terminate
the run immediately with a launch-failure outcome: no line is consumed,
the browser-open collaborator is never invoked, and control never
reaches the completion wait.  The fix script reports the distinguished
`ProcessNotFound` outcome for a missing executable. -/
theorem c6_launch_failure (e : LaunchErr) :
    ((step4_oauth_login (.error e)).consumed = []
      ∧ (step4_oauth_login (.error e)).opens = []
      ∧ (step4_oauth_login (.error e)).reachedWait = false
      ∧ (step4_oauth_login (.error e)).outcome = Outcome.launchFailed)
    ∧ ((perform_oauth_login (.error .notFound)).consumed = []
      ∧ (perform_oauth_login (.error .notFound)).opens = []
      ∧ (perform_oauth_login (.error .notFound)).reachedWait = false
      ∧ (perform_oauth_login (.error .notFound)).outcome = Outcome.processNotFound) := by
  cases e <;> exact ⟨⟨rfl, rfl, rfl, rfl⟩, ⟨rfl, rfl, rfl, rfl⟩⟩

/-- Claim C8: in both discovery loops the URL state variable is written
at most once: once it holds a URL `u`, every later line leaves it
unchanged and causes no further browser invocation; it is never reset
to unset. -/
theorem c8_url_set_at_most_once (exitAt eofAt : Option Nat) (items : List TimedLine)
    (now : Nat) (u : List Char) :
    ((step4_loop eofAt items now (some u)).urlFound = some u
      ∧ (step4_loop eofAt items now (some u)).opens = [])
    ∧ ((oauth_url_loop exitAt eofAt items now (some u)).urlFound = some u
      ∧ (oauth_url_loop exitAt eofAt items now (some u)).opens = []) :=
  ⟨step4_loop_some eofAt items now u,
   oauth_loop_some exitAt eofAt items now (some u) u rfl⟩

/-- Claim C1: over any run of either script, if some line consumed
during the discovery phase matches the trigger pattern, then the
browser-open collaborator is invoked exactly once, with the URL
extracted from the first matching consumed line, never one from a later
matching line. -/
theorem c1_browser_open_first_match (cS cF : Child)
    (hS : ∃ l ∈ (step4_oauth_login (.ok cS)).consumed, (searchHttpUrl l).isSome = true)
    (hF : ∃ l ∈ (perform_oauth_login (.ok cF)).consumed, (searchGoogleUrl l).isSome = true) :
    ((step4_oauth_login (.ok cS)).opens
        = (firstMatch searchHttpUrl (step4_oauth_login (.ok cS)).consumed).toList
      ∧ (step4_oauth_login (.ok cS)).opens.length = 1)
    ∧ ((perform_oauth_login (.ok cF)).opens
        = (firstMatch searchGoogleUrl (perform_oauth_login (.ok cF)).consumed).toList
      ∧ (perform_oauth_login (.ok cF)).opens.length = 1) := by
  constructor
  · obtain ⟨hu, ho, hc⟩ := step4_run_io cS
    have hchar := step4_loop_none cS.eofAt cS.lines 0
    rw [hc] at hS
    rw [ho, hc, hchar.2]
    obtain ⟨v, hv⟩ := Option.isSome_iff_exists.mp (firstMatch_isSome_of_mem hS)
    rw [hv]
    exact ⟨rfl, rfl⟩
  · obtain ⟨hu, ho, hc⟩ := oauth_run_fields cF
    have hchar := oauth_loop_none (cF.exitAt.map Prod.fst) cF.eofAt cF.lines 0 none rfl
    rw [hc.1] at hF
    rw [ho, hc.1, hchar.2]
    obtain ⟨v, hv⟩ := Option.isSome_iff_exists.mp (firstMatch_isSome_of_mem hF)
    rw [hv]
    exact ⟨rfl, rfl⟩

/-- Child used to exercise the setup script: the spec scenario lines,
stream closing immediately after, child exiting at once with status
0. -/
def childSetupDemo : Child :=
  ⟨[⟨0, "starting...".data⟩,
    ⟨0, "visit https://example.com/auth?code=abc123 to continue".data⟩,
    ⟨0, "waiting...".data⟩], some 0, some (0, 0)⟩

/-- The line carrying a Google accounts URL used in the fix-script
demonstrations. -/
def lineFixDemo : List Char :=
  "visit https://accounts.google.com/o/oauth2/auth?code=abc now".data

/-- Child used to exercise the fix script: one line carrying a Google
accounts URL at time 0, stream closing and child exiting at time 50. -/
def childFixDemo : Child := ⟨[⟨0, lineFixDemo⟩], some 50, some (50, 0)⟩

set_option maxRecDepth 8000 in
theorem oauthFixDemo_loop :
    oauth_url_loop (some 50) (some 50) [⟨0, lineFixDemo⟩] 0 none
      = ⟨searchGoogleUrl lineFixDemo, (searchGoogleUrl lineFixDemo).toList, [lineFixDemo],
          0, DiscEnd.matched, 0⟩ := by
  have hne : ¬ lineFixDemo = [] := by decide
  have hm : (searchGoogleUrl lineFixDemo).isSome = true := by decide
  rw [oauth_url_loop]
  simp [pollExited, hne, hm]

set_option maxRecDepth 8000 in
theorem fixDemo_consumed :
    (perform_oauth_login (.ok childFixDemo)).consumed = [lineFixDemo] := by
  have h := (oauth_run_fields childFixDemo).2.2.1
  rw [h]
  show (oauth_url_loop (some 50) (some 50) [⟨0, lineFixDemo⟩] 0 none).consumed = [lineFixDemo]
  rw [oauthFixDemo_loop]

set_option maxRecDepth 8000 in
/-- Witness for claim C1 at the concrete children above. -/
theorem c1_witness :
    ((step4_oauth_login (.ok childSetupDemo)).opens
        = (firstMatch searchHttpUrl (step4_oauth_login (.ok childSetupDemo)).consumed).toList
      ∧ (step4_oauth_login (.ok childSetupDemo)).opens.length = 1)
    ∧ ((perform_oauth_login (.ok childFixDemo)).opens
        = (firstMatch searchGoogleUrl (perform_oauth_login (.ok childFixDemo)).consumed).toList
      ∧ (perform_oauth_login (.ok childFixDemo)).opens.length = 1) :=
  c1_browser_open_first_match childSetupDemo childFixDemo (by decide)
    (by
      rw [fixDemo_consumed]
      exact ⟨lineFixDemo, List.mem_singleton_self _, by decide⟩)

/-- Claim C4, counterexample: a child that prints nothing, never
closes stdout and never exits is a run in which no consumed line
matches before the discovery deadline, yet the setup script hangs
forever in its blocking `readline` (line 212): the no-URL warning of
lines 222-224 is never printed and `process.wait` (line 228) is never
reached, refuting the claim as stated. -/
theorem c4_counterexample :
    (step4_oauth_login (.ok ⟨[], none, none⟩)).consumed = []
    ∧ (step4_oauth_login (.ok ⟨[], none, none⟩)).opens = []
    ∧ (step4_oauth_login (.ok ⟨[], none, none⟩)).warnedNoUrl = false
    ∧ (step4_oauth_login (.ok ⟨[], none, none⟩)).reachedWait = false
    ∧ (step4_oauth_login (.ok ⟨[], none, none⟩)).outcome = Outcome.blockedForever := by
  exact ⟨by decide, by decide, by decide, by decide, by decide⟩

/-- Claim C4 as amended: when no consumed line matches the trigger
pattern and the discovery loop actually ends (always the case in the
fix script; in the setup script whenever its blocking `readline` is not
stuck forever on a silent stream that stays open), the browser-open
collaborator is never invoked, the missed discovery only produces the
warning, and the run still proceeds to the completion wait instead of
terminating. -/
theorem c4_no_match_soft_timeout (cS cF : Child)
    (hSnm : ∀ l ∈ (step4_oauth_login (.ok cS)).consumed, searchHttpUrl l = none)
    (hSnb : (step4_loop cS.eofAt cS.lines 0 none).ended ≠ DiscEnd.blocked)
    (hFnm : ∀ l ∈ (perform_oauth_login (.ok cF)).consumed, searchGoogleUrl l = none) :
    ((step4_oauth_login (.ok cS)).opens = []
      ∧ (step4_oauth_login (.ok cS)).warnedNoUrl = true
      ∧ (step4_oauth_login (.ok cS)).reachedWait = true)
    ∧ ((perform_oauth_login (.ok cF)).opens = []
      ∧ (perform_oauth_login (.ok cF)).warnedNoUrl = true
      ∧ (perform_oauth_login (.ok cF)).reachedWait = true) := by
  constructor
  · obtain ⟨hu, ho, hc⟩ := step4_run_io cS
    obtain ⟨_, _, _, hwarn, hwait⟩ := step4_run_fields cS hSnb
    have hchar := step4_loop_none cS.eofAt cS.lines 0
    rw [hc] at hSnm
    have hnone : firstMatch searchHttpUrl (step4_loop cS.eofAt cS.lines 0 none).consumed
        = none := firstMatch_eq_none hSnm
    refine ⟨?_, ?_, hwait⟩
    · rw [ho, hchar.2, hnone]
      rfl
    · rw [hwarn, hchar.1, hnone]
      rfl
  · obtain ⟨hu, ho, hc, hwarn, hwait⟩ := oauth_run_fields cF
    have hchar := oauth_loop_none (cF.exitAt.map Prod.fst) cF.eofAt cF.lines 0 none rfl
    rw [hc] at hFnm
    have hnone : firstMatch searchGoogleUrl
        (oauth_url_loop (cF.exitAt.map Prod.fst) cF.eofAt cF.lines 0 none).consumed
        = none := firstMatch_eq_none hFnm
    refine ⟨?_, ?_, hwait⟩
    · rw [ho, hchar.2, hnone]
      rfl
    · rw [hwarn, hchar.1, hnone]
      rfl

/-- Child emitting one non-matching line for the setup script. -/
def childQuietSetup : Child := ⟨[⟨0, "starting...".data⟩], some 0, some (0, 1)⟩

/-- Child for the fix script that exits with status 1 before printing
anything. -/
def childQuietFix : Child := ⟨[], some 0, some (0, 1)⟩

set_option maxRecDepth 8000 in
/-- Witness for claim C4 at the concrete children above. -/
theorem c4_witness :
    ((step4_oauth_login (.ok childQuietSetup)).opens = []
      ∧ (step4_oauth_login (.ok childQuietSetup)).warnedNoUrl = true
      ∧ (step4_oauth_login (.ok childQuietSetup)).reachedWait = true)
    ∧ ((perform_oauth_login (.ok childQuietFix)).opens = []
      ∧ (perform_oauth_login (.ok childQuietFix)).warnedNoUrl = true
      ∧ (perform_oauth_login (.ok childQuietFix)).reachedWait = true) :=
  c4_no_match_soft_timeout childQuietSetup childQuietFix (by decide) (by decide)
    (by
      intro l hl
      rw [(oauth_run_fields childQuietFix).2.2.1,
        (oauth_loop_nil (childQuietFix.exitAt.map Prod.fst) childQuietFix.eofAt
          childQuietFix.lines 0 none rfl).2.2] at hl
      exact absurd hl (List.not_mem_nil l))

/-- Claim C5: whenever the completion deadline elapses while the child
is still alive (it never exits, or exits only after the 120 s wait
window), `kill` is invoked exactly once, the outcome is the
timed-out-completing failure, and the child is no longer running
afterwards.  For the setup script this holds whenever its discovery
loop ends. -/
theorem c5_completion_timeout_kills (cS cF : Child)
    (hSnb : (step4_loop cS.eofAt cS.lines 0 none).ended ≠ DiscEnd.blocked)
    (hSlate : ∀ (te : Nat) (rc : Int), cS.exitAt = some (te, rc) →
      (step4_loop cS.eofAt cS.lines 0 none).endTime + 1200 < te)
    (hFlate : ∀ (te : Nat) (rc : Int), cF.exitAt = some (te, rc) →
      (oauth_url_loop (cF.exitAt.map Prod.fst) cF.eofAt cF.lines 0 none).endTime + 1200 < te) :
    ((step4_oauth_login (.ok cS)).kills = 1
      ∧ (step4_oauth_login (.ok cS)).outcome = Outcome.timedOutCompleting
      ∧ (step4_oauth_login (.ok cS)).aliveAfter = false)
    ∧ ((perform_oauth_login (.ok cF)).kills = 1
      ∧ (perform_oauth_login (.ok cF)).outcome = Outcome.timedOutCompleting
      ∧ (perform_oauth_login (.ok cF)).aliveAfter = false) := by
  constructor
  · unfold step4_oauth_login
    cases hx : cS.exitAt with
    | none => simp [hSnb, hx]
    | some p =>
      obtain ⟨te, rc⟩ := p
      have hlt := hSlate te rc hx
      have hw : ¬ te ≤ (step4_loop cS.eofAt cS.lines 0 none).endTime + 1200 := by omega
      simp [hSnb, hx, hw]
  · unfold perform_oauth_login
    cases hx : cF.exitAt with
    | none => simp [hx]
    | some p =>
      obtain ⟨te, rc⟩ := p
      have hlt := hFlate te rc hx
      rw [hx] at hlt
      simp only [Option.map_some'] at hlt
      have hw : ¬ te ≤ (oauth_url_loop (some te) cF.eofAt cF.lines 0 none).endTime + 1200 := by
        omega
      simp [hx, hw]

/-- Child that never writes, closes its stream at once, and never
exits. -/
def childStuck : Child := ⟨[], some 0, none⟩

/-- Witness for claim C5 at the child that never exits. -/
theorem c5_witness :
    ((step4_oauth_login (.ok childStuck)).kills = 1
      ∧ (step4_oauth_login (.ok childStuck)).outcome = Outcome.timedOutCompleting
      ∧ (step4_oauth_login (.ok childStuck)).aliveAfter = false)
    ∧ ((perform_oauth_login (.ok childStuck)).kills = 1
      ∧ (perform_oauth_login (.ok childStuck)).outcome = Outcome.timedOutCompleting
      ∧ (perform_oauth_login (.ok childStuck)).aliveAfter = false) :=
  c5_completion_timeout_kills childStuck childStuck (by decide)
    (fun te rc h => nomatch h) (fun te rc h => nomatch h)

/-- Claim C7: a child that exits (with the stream closing) before
emitting any line still lets both scripts reach the completion wait
without hanging; the outcome is the success outcome exactly when the
exit status is zero and the process-failed outcome otherwise, and the
discovered URL stays unset with no browser invocation. -/
theorem c7_exit_before_output (te : Nat) (rc : Int) (hte : te ≤ 1200) :
    ((step4_oauth_login (.ok ⟨[], some te, some (te, rc)⟩)).reachedWait = true
      ∧ (step4_oauth_login (.ok ⟨[], some te, some (te, rc)⟩)).urlFound = none
      ∧ (step4_oauth_login (.ok ⟨[], some te, some (te, rc)⟩)).opens = []
      ∧ (step4_oauth_login (.ok ⟨[], some te, some (te, rc)⟩)).outcome
          = (if rc = 0 then Outcome.succeeded else Outcome.processFailed))
    ∧ ((perform_oauth_login (.ok ⟨[], some te, some (te, rc)⟩)).reachedWait = true
      ∧ (perform_oauth_login (.ok ⟨[], some te, some (te, rc)⟩)).urlFound = none
      ∧ (perform_oauth_login (.ok ⟨[], some te, some (te, rc)⟩)).opens = []
      ∧ (perform_oauth_login (.ok ⟨[], some te, some (te, rc)⟩)).outcome
          = (if rc = 0 then Outcome.succeeded else Outcome.processFailed)) := by
  constructor
  · have hd : step4_loop (some te) [] 0 none
        = ⟨none, [], [], te, DiscEnd.eofBreak, te⟩ := by
      rw [step4_loop]
      simp
    unfold step4_oauth_login
    simp only [hd]
    simp [Nat.le_add_right]
  · have hnil := oauth_loop_nil (some te) (some te) [] 0 none rfl
    have hw : te ≤ (oauth_url_loop (some te) (some te) [] 0 none).endTime + 1200 := by
      omega
    unfold perform_oauth_login
    simp [hw, hnil.1, hnil.2.1]

/-- Witness for claim C7: the spec scenario with exit status 1 at time
10 yields the process-failed outcome with the URL unset. -/
theorem c7_witness :
    ((step4_oauth_login (.ok ⟨[], some 10, some (10, 1)⟩)).reachedWait = true
      ∧ (step4_oauth_login (.ok ⟨[], some 10, some (10, 1)⟩)).urlFound = none
      ∧ (step4_oauth_login (.ok ⟨[], some 10, some (10, 1)⟩)).opens = []
      ∧ (step4_oauth_login (.ok ⟨[], some 10, some (10, 1)⟩)).outcome
          = Outcome.processFailed)
    ∧ ((perform_oauth_login (.ok ⟨[], some 10, some (10, 1)⟩)).reachedWait = true
      ∧ (perform_oauth_login (.ok ⟨[], some 10, some (10, 1)⟩)).urlFound = none
      ∧ (perform_oauth_login (.ok ⟨[], some 10, some (10, 1)⟩)).opens = []
      ∧ (perform_oauth_login (.ok ⟨[], some 10, some (10, 1)⟩)).outcome
          = Outcome.processFailed) := by
  have h := c7_exit_before_output 10 1 (by decide)
  simpa using h

/-- Claim C9: when the diagnosis phase records no issues, `run_fix`
returns `True` regardless of the verification test it still runs, so a
failing authentication test after a clean diagnosis does not make the
run fail. -/
theorem c9_clean_diagnosis_returns_true (e : FixEnv) (installOk oauthOk testOk : Bool)
    (h : diagnose_auth_issues e = []) :
    (run_fix e installOk oauthOk testOk).ret = true
    ∧ (run_fix e installOk oauthOk testOk).invoked = [FixStep.testAuth] := by
  unfold run_fix
  simp [h]

/-- Environment in which all six diagnosis checks pass. -/
def envClean : FixEnv := ⟨true, false, true, true, true, some ("xterm-256color".data), true⟩

/-- Witness for claim C9: a clean diagnosis with a failing verification
test still returns `True`. -/
theorem c9_witness :
    (run_fix envClean true true false).ret = true
    ∧ (run_fix envClean true true false).invoked = [FixStep.testAuth] :=
  c9_clean_diagnosis_returns_true envClean true true false (by decide)

/-- Claim C10: each repair operation of `run_fix` is invoked only when
its issue tag was recorded during diagnosis; no fix runs for an
undiagnosed issue. -/
theorem c10_fix_only_when_diagnosed (e : FixEnv) (installOk oauthOk testOk : Bool) :
    (FixStep.apiKey ∈ (run_fix e installOk oauthOk testOk).invoked →
        Issue.api_key_conflict ∈ diagnose_auth_issues e)
    ∧ (FixStep.config ∈ (run_fix e installOk oauthOk testOk).invoked →
        Issue.corrupted_config ∈ diagnose_auth_issues e)
    ∧ (FixStep.term ∈ (run_fix e installOk oauthOk testOk).invoked →
        Issue.bad_term ∈ diagnose_auth_issues e)
    ∧ (FixStep.install ∈ (run_fix e installOk oauthOk testOk).invoked →
        Issue.gemini_cli_missing ∈ diagnose_auth_issues e)
    ∧ (FixStep.oauth ∈ (run_fix e installOk oauthOk testOk).invoked →
        Issue.no_credentials ∈ diagnose_auth_issues e
          ∨ Issue.auth_failure ∈ diagnose_auth_issues e) := by
  unfold run_fix
  dsimp only
  split_ifs <;> simp_all [List.mem_append]

/-- Environment in which all six diagnosis checks fail. -/
def envBroken : FixEnv := ⟨false, true, true, false, false, some ("dumb".data), false⟩

/-- Witness for claim C10 at the fully broken environment. -/
theorem c10_witness :
    Issue.api_key_conflict ∈ diagnose_auth_issues envBroken
    ∧ Issue.corrupted_config ∈ diagnose_auth_issues envBroken
    ∧ Issue.bad_term ∈ diagnose_auth_issues envBroken
    ∧ Issue.gemini_cli_missing ∈ diagnose_auth_issues envBroken
    ∧ (Issue.no_credentials ∈ diagnose_auth_issues envBroken
        ∨ Issue.auth_failure ∈ diagnose_auth_issues envBroken) := by
  have h := c10_fix_only_when_diagnosed envBroken true true true
  exact ⟨h.1 (by decide), h.2.1 (by decide), h.2.2.1 (by decide),
    h.2.2.2.1 (by decide), h.2.2.2.2 (by decide)⟩

end GeminiHQ
